import Mathlib

/-!
# Verification of the galachain-launchpad core

Shallow embedding of the two components covered by the spec:

* the constraint-validation decorators of `src/api/validators/decorators.ts`
  (each decorator's `validate` closure becomes a Lean function over a small
  JavaScript-value domain), and
* the batch-submit authority registry of the chaincode module
  (`fetchLaunchpadBatchSubmitAuthorities`, `authorizeLaunchpadBatchSubmitter`,
  `deauthorizeLaunchpadBatchSubmitter`, `getLaunchpadBatchSubmitAuthorities`,
  `isAuthorizedForLaunchpadBatchSubmit`), with the ledger modelled as the
  optional contents of the single composite-keyed record.

Decimal values are the `bignumber.js` values the decorators operate on:
a value is NaN, a signed infinity, or a finite signed coefficient/scale pair.
The predicates (`isPositive`, `isNegative`, `isZero`, `isInteger`, `isFinite`,
`comparedTo`, `isLessThanOrEqualTo`) follow the library's documented
semantics: `isPositive`/`isNegative` inspect the sign field (so zero with a
positive sign is positive), comparison is by numeric value with NaN
incomparable and zeros of either sign equal.
-/

set_option autoImplicit false

/-- A `bignumber.js` value: NaN, a signed infinity, or a finite decimal
`fin sign coeff scale` whose numeric value is `±coeff / 10^scale`
(`sign = true` encodes the positive sign bit `s = 1`). -/
inductive BigNum where
  | nan : BigNum
  | inf : Bool → BigNum
  | fin : Bool → Nat → Nat → BigNum
deriving DecidableEq, Repr

namespace BigNum

/-- Numeric value of a finite decimal: `±coeff / 10^scale`. -/
def finVal (sg : Bool) (c sc : Nat) : ℚ :=
  mkRat (if sg then (c : Int) else -(c : Int)) (10 ^ sc)

/-- The numeric value, when finite (`none` for NaN and the infinities). -/
def val? : BigNum → Option ℚ
  | .fin sg c sc => some (finVal sg c sc)
  | _ => none

/-- `isPositive()`: `this.s > 0` — a sign test, true also for `+0` and `+∞`,
false for NaN (whose sign is null). -/
def isPositive : BigNum → Bool
  | .nan => false
  | .inf sg => sg
  | .fin sg _ _ => sg

/-- `isNegative()`: `this.s < 0`. -/
def isNegative : BigNum → Bool
  | .nan => false
  | .inf sg => !sg
  | .fin sg _ _ => !sg

/-- `isZero()`: finite with zero coefficient (either sign). -/
def isZero : BigNum → Bool
  | .fin _ c _ => c == 0
  | _ => false

/-- `isFinite()`: the coefficient array is present. -/
def isFinite : BigNum → Bool
  | .fin _ _ _ => true
  | _ => false

/-- `isInteger()`: finite and the value has no fractional part. -/
def isInteger : BigNum → Bool
  | .fin _ c sc => c % 10 ^ sc == 0
  | _ => false

/-- `comparedTo()`: `-1`/`0`/`1` by numeric value, `null` when either side is
NaN; zeros of either sign compare equal; equal infinities compare equal. -/
def comparedTo : BigNum → BigNum → Option Int
  | .nan, _ => none
  | _, .nan => none
  | .inf a, .inf b => if a = b then some 0 else if a then some 1 else some (-1)
  | .inf a, .fin _ _ _ => some (if a then 1 else -1)
  | .fin _ _ _, .inf b => some (if b then -1 else 1)
  | .fin s₁ c₁ k₁, .fin s₂ c₂ k₂ =>
      let x := finVal s₁ c₁ k₁
      let y := finVal s₂ c₂ k₂
      some (if x < y then -1 else if x = y then 0 else 1)

/-- `isLessThanOrEqualTo()`: `comparedTo` is `-1` or `0`; false when NaN is
involved. -/
def isLessThanOrEqualTo (x y : BigNum) : Bool :=
  match x.comparedTo y with
  | some r => r ≤ 0
  | none => false

end BigNum

/-- Modelled from the spec: `parse(input) -> Result<DecimalValue, ParseError>`
of the Decimal Value Model — "parsing fails with `ParseError` when the input is
not a syntactically valid decimal literal". A literal is an optional sign
followed by decimal digits with at most one point and at least one digit; on
success it yields the sign, coefficient and scale of the value. -/
def parseDecCore (s : String) : Option (Bool × Nat × Nat) :=
  let readDigits : List Char → Option Nat := fun cs =>
    cs.foldl
      (fun acc c =>
        match acc with
        | none => none
        | some n => if c.isDigit then some (n * 10 + (c.toNat - 48)) else none)
      (some 0)
  let (sg, body) :=
    match s.data with
    | '-' :: t => (false, t)
    | '+' :: t => (true, t)
    | t => (true, t)
  match body.splitOn '.' with
  | [ip] =>
      if ip.isEmpty then none
      else match readDigits ip with
        | some n => some (sg, n, 0)
        | none => none
  | [ip, fp] =>
      if ip.isEmpty && fp.isEmpty then none
      else match readDigits ip, readDigits fp with
        | some a, some b => some (sg, a * 10 ^ fp.length + b, fp.length)
        | _, _ => none
  | _ => none

/-- `new BigNumber(string)`: a valid decimal literal yields the finite value,
anything else yields NaN (the constructor does not throw outside debug mode;
an unparseable string produces the NaN value). -/
def parseDec (s : String) : BigNum :=
  match parseDecCore s with
  | some (sg, c, sc) => .fin sg c sc
  | none => .nan

/-- The JavaScript values the field-level validators receive: `undefined`,
a string, or a `BigNumber` instance. -/
inductive JSValue where
  | undef : JSValue
  | str : String → JSValue
  | bnum : BigNum → JSValue
deriving DecidableEq, Repr

namespace JSValue

/-- `typeof v === "string"`. -/
def isString : JSValue → Bool
  | .str _ => true
  | _ => false

/-- `new BigNumber(value)` applied to a validator input: a BigNumber is
copied, a string is parsed, `undefined` stringifies to `"undefined"` which is
not numeric and yields NaN. -/
def toBigNum : JSValue → BigNum
  | .bnum b => b
  | .str s => parseDec s
  | .undef => .nan

end JSValue

/-! ## Validators from `src/api/validators/decorators.ts` -/

/-- `IsDifferentValue.validate(value, relatedValue)`: throws
`NotImplementedError` unless each of the two values is a string or
`undefined`; otherwise returns the strict-inequality verdict
`value !== relatedValue`. -/
def isDifferentValue_validate (value relatedValue : JSValue) :
    Except String Bool :=
  if (value.isString = false ∧ value ≠ .undef) ∨
      (relatedValue.isString = false ∧ relatedValue ≠ .undef) then
    .error "IsDifferentValue only works with string or undefined"
  else
    .ok (decide (value ≠ relatedValue))

/-- `ArrayUniqueConcat.validate(value, relatedValue)`: evaluates
`new Set(relatedValue.concat(value)).size === relatedValue.length + value.length`.
When the related field is `undefined` or `null` the call
`relatedValue.concat` throws a `TypeError`; element equality in a `Set` of
strings is content equality, and the set's size is the number of distinct
elements of the concatenation. -/
def arrayUniqueConcat_validate (value : List String)
    (relatedValue : Option (List String)) : Except String Bool :=
  match relatedValue with
  | none => .error "TypeError: relatedValue.concat is not a function"
  | some rs =>
      .ok (decide (((rs ++ value).dedup).length = rs.length + value.length))

/-- `IsBigNumber.validate(value)`: `BigNumber.isBigNumber(value)`. -/
def isBigNumber_validate : JSValue → Bool
  | .bnum _ => true
  | _ => false

/-- `validateBigNumberOrIgnore(obj, fn)`: applies the predicate when `obj` is
a BigNumber instance, otherwise passes. -/
def validateBigNumberOrIgnore (obj : JSValue) (fn : BigNum → Bool) : Bool :=
  match obj with
  | .bnum b => fn b
  | _ => true

/-- `BigNumberIsPositive.validate`. -/
def bigNumberIsPositive_validate (v : JSValue) : Bool :=
  validateBigNumberOrIgnore v (fun b => b.isPositive)

/-- `BigNumberIsNegative.validate`. -/
def bigNumberIsNegative_validate (v : JSValue) : Bool :=
  validateBigNumberOrIgnore v (fun b => b.isNegative)

/-- `BigNumberIsNotNegative.validate`. -/
def bigNumberIsNotNegative_validate (v : JSValue) : Bool :=
  validateBigNumberOrIgnore v (fun b => !b.isNegative)

/-- `BigNumberIsInteger.validate`. -/
def bigNumberIsInteger_validate (v : JSValue) : Bool :=
  validateBigNumberOrIgnore v (fun b => b.isInteger)

/-- `BigNumberIsNotInfinity.validate`. -/
def bigNumberIsNotInfinity_validate (v : JSValue) : Bool :=
  validateBigNumberOrIgnore v (fun b => b.isFinite)

/-- `IsNonZeroBigNumber.validate(value)`:
`value instanceof BigNumber && !value.isZero()`. -/
def isNonZeroBigNumber_validate : JSValue → Bool
  | .bnum b => !b.isZero
  | _ => false

/-- `BigNumberMax(maxValue).validate(value)`: `new BigNumber(value)` compared
with `isLessThanOrEqualTo(max)`; an unparseable value yields NaN, whose
comparison is false (the surrounding `try/catch` also maps any constructor
throw to false). -/
def bigNumberMax_validate (max : BigNum) (v : JSValue) : Bool :=
  (v.toBigNum).isLessThanOrEqualTo max

/-! ## Batch-submit authority registry

The ledger state is the optional contents of the single
`LaunchpadBatchSubmitAuthorities` record (`none` = the record has never been
written). `getObjectByKey` signals `NOT_FOUND` on an absent record. -/

/-- Errors surfaced by the persistence collaborator and the chaincode. -/
inductive ChainErr where
  | notFound : ChainErr
  | other : String → ChainErr
deriving DecidableEq, Repr

/-- `getObjectByKey(ctx, LaunchpadBatchSubmitAuthorities, key)`: reads the
singleton record, `NOT_FOUND` when absent. -/
def getObjectByKey (st : Option (List String)) : Except ChainErr (List String) :=
  match st with
  | some as => .ok as
  | none => .error .notFound

/-- Modelled from the spec: `LaunchpadBatchSubmitAuthorities.addAuthority`
(the class is declared in the repository's api module, which is not among the
provided sources). The record "holds an unordered set of principal
identifiers (strings), deduplicated"; adding is a "no-op if already
present". -/
def addAuthority (as : List String) (a : String) : List String :=
  if as.contains a then as else as ++ [a]

/-- Modelled from the spec: `LaunchpadBatchSubmitAuthorities.removeAuthority`
"removes the principal (no-op if absent)". -/
def removeAuthority (as : List String) (a : String) : List String :=
  as.filter (fun x => x ≠ a)

/-- Modelled from the spec: `LaunchpadBatchSubmitAuthorities.isAuthorized` —
"set membership is the sole authorization source for batch-submit
operations". -/
def isAuthorizedMember (as : List String) (u : String) : Bool :=
  as.contains u

/-- `fetchLaunchpadBatchSubmitAuthorities(ctx)`: reads the singleton record by
its fixed composite key; propagates `NOT_FOUND`. -/
def fetchLaunchpadBatchSubmitAuthorities (st : Option (List String)) :
    Except ChainErr (List String) :=
  getObjectByKey st

/-- `authorizeLaunchpadBatchSubmitter(ctx, dto)`: reads the record, mapping a
`NOT_FOUND` error to the empty set (any other error rethrown), adds each
principal of `dto.authorities`, persists, and responds with the updated
authorities. The result is the pair (ledger state after `putChainObject`,
response `authorities`). -/
def authorizeLaunchpadBatchSubmitter (st : Option (List String))
    (dtoAuthorities : List String) :
    Except ChainErr (Option (List String) × List String) :=
  match
    (match getObjectByKey st with
      | .ok as => Except.ok as
      | .error e =>
          if e = ChainErr.notFound then Except.ok [] else Except.error e)
  with
  | .error e => .error e
  | .ok authorities =>
      let authorities := dtoAuthorities.foldl addAuthority authorities
      .ok (some authorities, authorities)

/-- `deauthorizeLaunchpadBatchSubmitter(ctx, dto)`: reads via `fetch`
(propagating `NOT_FOUND`), removes `dto.authority`, persists, responds with
the updated authorities. -/
def deauthorizeLaunchpadBatchSubmitter (st : Option (List String))
    (authority : String) :
    Except ChainErr (Option (List String) × List String) :=
  match fetchLaunchpadBatchSubmitAuthorities st with
  | .error e => .error e
  | .ok as =>
      let as := removeAuthority as authority
      .ok (some as, as)

/-- `getLaunchpadBatchSubmitAuthorities(ctx, dto)`: reads via `fetch`
(propagating `NOT_FOUND`) and responds with the stored authorities. -/
def getLaunchpadBatchSubmitAuthorities (st : Option (List String)) :
    Except ChainErr (List String) :=
  match fetchLaunchpadBatchSubmitAuthorities st with
  | .error e => .error e
  | .ok as => .ok as

/-- `isAuthorizedForLaunchpadBatchSubmit(ctx)`: reads via `fetch` (no catch —
`NOT_FOUND` propagates) and checks membership of the calling user. -/
def isAuthorizedForLaunchpadBatchSubmit (st : Option (List String))
    (callingUser : String) : Except ChainErr Bool :=
  match fetchLaunchpadBatchSubmitAuthorities st with
  | .error e => .error e
  | .ok as => .ok (isAuthorizedMember as callingUser)

/-- The stored record's invariant: when the record exists its authority list
has no duplicate entries. -/
def authStateWF (st : Option (List String)) : Prop :=
  ∀ as, st = some as → as.Nodup

/-! ## Helper lemmas -/

theorem mem_addAuthority (as : List String) (p : String) :
    p ∈ addAuthority as p := by
  unfold addAuthority
  by_cases h : p ∈ as
  · simp [h]
  · simp [h]

theorem addAuthority_of_mem {as : List String} {p : String} (h : p ∈ as) :
    addAuthority as p = as := by
  simp [addAuthority, h]

theorem dedup_length_eq_iff_nodup {α : Type} [DecidableEq α] (l : List α) :
    l.dedup.length = l.length ↔ l.Nodup := by
  constructor
  · intro h
    exact List.dedup_eq_self.mp ((l.dedup_sublist).eq_of_length h)
  · intro h
    rw [List.dedup_eq_self.mpr h]

theorem isLE_fin_fin (s₁ : Bool) (c₁ k₁ : Nat) (s₂ : Bool) (c₂ k₂ : Nat) :
    (BigNum.fin s₁ c₁ k₁).isLessThanOrEqualTo (.fin s₂ c₂ k₂) =
      decide (BigNum.finVal s₁ c₁ k₁ ≤ BigNum.finVal s₂ c₂ k₂) := by
  unfold BigNum.isLessThanOrEqualTo BigNum.comparedTo
  rcases lt_trichotomy (BigNum.finVal s₁ c₁ k₁) (BigNum.finVal s₂ c₂ k₂) with
    h | h | h
  · simp [h, le_of_lt h]
  · simp [h]
  · simp [not_lt_of_gt h, ne_of_gt h, not_le_of_gt h]

/-! ## Claims about the authority registry -/

/-- C1 (counterexample). The claim says `isAuthorizedForLaunchpadBatchSubmit`
absorbs the NotFound of the underlying fetch into `false`; on the
never-written ledger the code instead propagates the error. -/
theorem isAuthorized_notFound_counterexample :
    isAuthorizedForLaunchpadBatchSubmit none "client|alice" =
      Except.error ChainErr.notFound := by rfl

/-- C1 (amended). `isAuthorizedForLaunchpadBatchSubmit` propagates the
NotFound error of the underlying fetch when the Authority Set record has
never been written — exactly like `deauthorize` and `list` — and returns the
membership verdict only when the record exists. -/
theorem isAuthorized_propagates_notFound :
    (∀ u, isAuthorizedForLaunchpadBatchSubmit none u =
      Except.error ChainErr.notFound) ∧
    ∀ as u, isAuthorizedForLaunchpadBatchSubmit (some as) u =
      Except.ok (as.contains u) := by
  exact ⟨fun _ => rfl, fun _ _ => rfl⟩

/-- C3. On a ledger where the Authority Set record is absent, `authorize`
succeeds by defaulting to the empty set and writing the record, while
`deauthorize` and `list` propagate the NotFound error. -/
theorem notFound_asymmetry :
    (∀ dto : List String, authorizeLaunchpadBatchSubmitter none dto =
      Except.ok (some (dto.foldl addAuthority []), dto.foldl addAuthority [])) ∧
    (∀ a, deauthorizeLaunchpadBatchSubmitter none a =
      Except.error ChainErr.notFound) ∧
    getLaunchpadBatchSubmitAuthorities none = Except.error ChainErr.notFound := by
  exact ⟨fun _ => rfl, fun _ => rfl, rfl⟩

/-- C9. The zero decimal with positive sign (the value `new BigNumber("0")`)
passes `BigNumberIsPositive`: the underlying `isPositive` is a sign test, not
a strict greater-than-zero test. -/
theorem bigNumberIsPositive_zero :
    parseDec "0" = BigNum.fin true 0 0 ∧
    (parseDec "0").isZero = true ∧
    bigNumberIsPositive_validate (.bnum (parseDec "0")) = true := by
  exact ⟨rfl, rfl, rfl⟩

/-- C10. `ArrayUniqueConcat` is not total: when the related field is absent
(`undefined`/`null`), `relatedValue.concat` throws a TypeError instead of
returning a verdict. -/
theorem arrayUniqueConcat_throws :
    arrayUniqueConcat_validate ["GALA"] none =
      Except.error "TypeError: relatedValue.concat is not a function" := by rfl

theorem authorize_eq (st : Option (List String)) (dto : List String) :
    authorizeLaunchpadBatchSubmitter st dto =
      .ok (some (dto.foldl addAuthority (st.getD [])),
           dto.foldl addAuthority (st.getD [])) := by
  cases st <;> rfl

/-- C4. `authorize` is idempotent: starting from any ledger state satisfying
the record's no-duplicates invariant, if authorizing `[p]` produces the
record `as`, then authorizing `[p]` again from the resulting state leaves the
record unchanged, and `as` holds exactly one entry for `p`. -/
theorem authorize_idempotent (st : Option (List String)) (p : String)
    (hwf : authStateWF st) (as : List String)
    (h : authorizeLaunchpadBatchSubmitter st [p] = .ok (some as, as)) :
    authorizeLaunchpadBatchSubmitter (some as) [p] = .ok (some as, as) ∧
    as.count p = 1 := by
  rw [authorize_eq] at h
  simp only [Except.ok.injEq, Prod.mk.injEq, Option.some.injEq] at h
  obtain ⟨h1, -⟩ := h
  have has : as = addAuthority (st.getD []) p := h1.symm
  have hmem : p ∈ as := has ▸ mem_addAuthority (st.getD []) p
  constructor
  · rw [authorize_eq]
    simp only [Option.getD_some, List.foldl]
    rw [addAuthority_of_mem hmem]
  · cases st with
    | none =>
        subst has
        simp [addAuthority]
    | some as₀ =>
        have hnd : as₀.Nodup := hwf as₀ rfl
        simp only [Option.getD_some] at has
        by_cases hp : p ∈ as₀
        · rw [has, addAuthority_of_mem hp]
          exact List.count_eq_one_of_mem hnd hp
        · rw [has]
          simp [addAuthority, hp, List.count_eq_zero_of_not_mem hp]

/-- C4 witness: instantiating the idempotence theorem on the never-written
ledger and the principal `"client|a"`. -/
theorem authorize_idempotent_witness :
    authorizeLaunchpadBatchSubmitter (some ["client|a"]) ["client|a"] =
      .ok (some ["client|a"], ["client|a"]) ∧
    (["client|a"] : List String).count "client|a" = 1 :=
  authorize_idempotent none "client|a"
    (fun as h => Option.noConfusion h) ["client|a"] (by rfl)

/-! ## Claims about the field validators -/

/-- C2 (counterexample). The claim says the distinct-string check returns
true when both values are `undefined`; the code evaluates
`value !== relatedValue`, which is false for two `undefined` values. -/
theorem isDifferentValue_counterexample :
    isDifferentValue_validate .undef .undef = .ok false := by rfl

/-- C2 (amended). `IsDifferentValue` returns true iff the two values are not
strictly equal: both strings with different content, or exactly one of the
two `undefined`; two `undefined` values are equal, so the verdict is false;
and it raises `NotImplementedError` when either value is neither a string nor
`undefined`. -/
theorem isDifferentValue_spec :
    (∀ s t : String,
      isDifferentValue_validate (.str s) (.str t) = .ok (decide (s ≠ t))) ∧
    isDifferentValue_validate .undef .undef = .ok false ∧
    (∀ s, isDifferentValue_validate (.str s) .undef = .ok true ∧
          isDifferentValue_validate .undef (.str s) = .ok true) ∧
    ∀ b v, (∃ m, isDifferentValue_validate (.bnum b) v = .error m) ∧
           ∃ m, isDifferentValue_validate v (.bnum b) = .error m := by
  refine ⟨fun s t => ?_, by rfl, fun s => ⟨by rfl, by rfl⟩, fun b v => ?_⟩
  · simp [isDifferentValue_validate, JSValue.isString]
  · constructor <;>
      exact ⟨"IsDifferentValue only works with string or undefined",
        by simp [isDifferentValue_validate, JSValue.isString]⟩

/-- C5. Each pass-through decimal constraint (positive, negative,
non-negative, integer, finite) returns true on any value that is not a
BigNumber instance, and on a BigNumber instance returns exactly the
corresponding decimal predicate. -/
theorem bigNumber_orIgnore_family :
    (∀ b : BigNum,
      bigNumberIsPositive_validate (.bnum b) = b.isPositive ∧
      bigNumberIsNegative_validate (.bnum b) = b.isNegative ∧
      bigNumberIsNotNegative_validate (.bnum b) = !b.isNegative ∧
      bigNumberIsInteger_validate (.bnum b) = b.isInteger ∧
      bigNumberIsNotInfinity_validate (.bnum b) = b.isFinite) ∧
    ∀ v : JSValue, isBigNumber_validate v = false →
      bigNumberIsPositive_validate v = true ∧
      bigNumberIsNegative_validate v = true ∧
      bigNumberIsNotNegative_validate v = true ∧
      bigNumberIsInteger_validate v = true ∧
      bigNumberIsNotInfinity_validate v = true := by
  refine ⟨fun b => ⟨rfl, rfl, rfl, rfl, rfl⟩, fun v hv => ?_⟩
  cases v with
  | bnum b => exact absurd hv (by simp [isBigNumber_validate])
  | undef => exact ⟨rfl, rfl, rfl, rfl, rfl⟩
  | str s => exact ⟨rfl, rfl, rfl, rfl, rfl⟩

/-- C5 witness: the plain string `"5"` is not a BigNumber instance and passes
all five pass-through constraints. -/
theorem bigNumber_orIgnore_family_witness :
    bigNumberIsPositive_validate (.str "5") = true ∧
    bigNumberIsNegative_validate (.str "5") = true ∧
    bigNumberIsNotNegative_validate (.str "5") = true ∧
    bigNumberIsInteger_validate (.str "5") = true ∧
    bigNumberIsNotInfinity_validate (.str "5") = true :=
  bigNumber_orIgnore_family.2 (.str "5") (by rfl)

/-- C6. `IsNonZeroBigNumber` passes exactly the BigNumber instances whose
value is not zero: the decimals `"0"` and `"0.0"` fail, and a non-BigNumber
value such as a plain string fails rather than passing through. -/
theorem isNonZeroBigNumber_spec :
    (∀ v : JSValue, isNonZeroBigNumber_validate v = true ↔
      ∃ b, v = .bnum b ∧ b.isZero = false) ∧
    isNonZeroBigNumber_validate (.bnum (parseDec "0")) = false ∧
    isNonZeroBigNumber_validate (.bnum (parseDec "0.0")) = false ∧
    isNonZeroBigNumber_validate (.str "0") = false := by
  refine ⟨fun v => ?_, by rfl, by rfl, by rfl⟩
  cases v <;> simp [isNonZeroBigNumber_validate]

/-- C7. `BigNumberMax` with a finite registered bound passes a string value
iff it parses to a decimal that is ≤ the bound; a parse failure (NaN) fails
the constraint. With bound `100`: `"100"` passes, `"100.0000001"` fails, and
a non-numeric string fails. -/
theorem bigNumberMax_spec :
    (∀ (sg : Bool) (c sc : Nat) (s : String),
      bigNumberMax_validate (.fin sg c sc) (.str s) = true ↔
        ∃ q, (parseDec s).val? = some q ∧ q ≤ BigNum.finVal sg c sc) ∧
    bigNumberMax_validate (parseDec "100") (.str "100") = true ∧
    bigNumberMax_validate (parseDec "100") (.str "100.0000001") = false ∧
    bigNumberMax_validate (parseDec "100") (.str "abc") = false := by
  refine ⟨fun sg c sc s => ?_, by decide, by decide, by decide⟩
  rcases hp : parseDecCore s with - | ⟨sg₂, c₂, sc₂⟩
  · simp [bigNumberMax_validate, JSValue.toBigNum, parseDec, hp,
      BigNum.isLessThanOrEqualTo, BigNum.comparedTo, BigNum.val?]
  · simp only [bigNumberMax_validate, JSValue.toBigNum, parseDec, hp]
    rw [isLE_fin_fin]
    simp [BigNum.val?]

/-- C8. `ArrayUniqueConcat` on sequences `A` (related field) and `B`
(decorated field) passes iff the set formed from `A ++ B` has as many
elements as `A` and `B` together: no duplicate inside `A`, none inside `B`,
and no element common to both. -/
theorem arrayUniqueConcat_spec :
    ∀ A B : List String,
      (arrayUniqueConcat_validate B (some A) = .ok true ↔
        (A ++ B).dedup.length = A.length + B.length) ∧
      (arrayUniqueConcat_validate B (some A) = .ok true ↔
        A.Nodup ∧ B.Nodup ∧ ∀ x ∈ A, x ∉ B) := by
  intro A B
  have hcard : arrayUniqueConcat_validate B (some A) = .ok true ↔
      (A ++ B).dedup.length = A.length + B.length := by
    simp [arrayUniqueConcat_validate]
  refine ⟨hcard, hcard.trans ?_⟩
  rw [show A.length + B.length = (A ++ B).length from (A.length_append B).symm,
    dedup_length_eq_iff_nodup, List.nodup_append]
  exact Iff.rfl
